import Mathlib

/-!
Verification of the Home Assistant WebSocket session manager
(`src/home_assistant_sdk/home_assistant_client.py`, class `HAWebSocketClient`).

The client's mutable session state (`_next_id`, `_pending`, `_subscriptions`,
`_resubscribe_cache`, flags) is embedded as an explicit record, Python dicts as
insertion-ordered association lists, Python JSON values as an inductive type,
and the state-mutating methods as pure state transformers translated line by
line from the source.  Where a statement needs Python's reference/mutation
semantics (dict copies), an explicit heap of objects is used.
-/

namespace HA

/-- JSON values as produced by Python's `json` module and manipulated by the
client.  Numbers are modelled as integers: every frame field this client ever
inspects is an integer id, a flag, a string or a nested object/array. -/
inductive JVal where
  | null : JVal
  | bool : Bool → JVal
  | num : Int → JVal
  | str : String → JVal
  | arr : List JVal → JVal
  | obj : List (String × JVal) → JVal

/-- A Python dict with string keys, in insertion order (a JSON object). -/
abbrev JObj := List (String × JVal)

/-- Python `d.get(k)`: the (unique) binding of `k`, else `None`. -/
def jget (o : JObj) (k : String) : Option JVal :=
  (o.find? (fun q => q.1 == k)).map (fun q => q.2)

/-- Python `d.get(k, default)`. -/
def jgetD (o : JObj) (k : String) (d : JVal) : JVal :=
  (jget o k).getD d

/-- Python `d[k] = v`: update in place if the key exists, else append
(Python dicts preserve insertion order). -/
def jset (o : JObj) (k : String) (v : JVal) : JObj :=
  if (o.find? (fun q => q.1 == k)).isSome then
    o.map (fun q => if q.1 == k then (k, v) else q)
  else o ++ [(k, v)]

/-- Python truthiness (`bool(x)`) on JSON values. -/
def pyTruthy : JVal → Bool
  | .null => false
  | .bool b => b
  | .num n => n != 0
  | .str s => s != ""
  | .arr xs => !xs.isEmpty
  | .obj fs => !fs.isEmpty

/-- Python `a or b`. -/
def pyOr (a b : JVal) : JVal := if pyTruthy a then a else b

/-- An integer-keyed Python dict (used for `_pending` and `_subscriptions`). -/
abbrev IDict (α : Type) := List (Int × α)

/-- Python `d.get(k)` on an integer-keyed dict. -/
def dfind {α : Type} (p : IDict α) (k : Int) : Option α :=
  (p.find? (fun q => q.1 == k)).map (fun q => q.2)

/-- Python `d[k] = v` on an integer-keyed dict. -/
def dset {α : Type} (p : IDict α) (k : Int) (v : α) : IDict α :=
  if (p.find? (fun q => q.1 == k)).isSome then
    p.map (fun q => if q.1 == k then (k, v) else q)
  else p ++ [(k, v)]

/-- Python `d.pop(k, None)` on an integer-keyed dict (keys are unique). -/
def dpop {α : Type} (p : IDict α) (k : Int) : IDict α :=
  p.filter (fun q => q.1 != k)

/-- Exceptions of the client (`HAWebSocketError` hierarchy).  `requestError`
carries the server error payload interpolated into the Python message;
`connectionClosed` carries the literal message string used at the raise site. -/
inductive HAError where
  | authError : HAError
  | connectionClosed : String → HAError
  | requestError : JVal → HAError
  | timeoutError : HAError

/-- State of one `asyncio.Future` held in `_pending`. -/
inductive FutState where
  | waiting : FutState
  | resolved : JVal → FutState
  | failed : HAError → FutState

/-- Python `fut.done()`. -/
def FutState.done : FutState → Bool
  | .waiting => false
  | _ => true

/-- The session-mutable state of `HAWebSocketClient`.  Event callbacks are
opaque Python function objects; they are modelled as `Nat` tokens, which the
code never inspects, only stores and hands events to. -/
structure ClientState where
  next_id : Int
  pending : IDict FutState
  subscriptions : IDict Nat
  resubscribe_cache : List JVal
  auto_reconnect : Bool
  close_event : Bool
  ws_connected : Bool
  enable_coalesce : Bool

/-- A heap of dict objects, making Python's reference semantics explicit:
a payload argument is a reference (index) into the heap. -/
structure Heap where
  objs : List JObj

/-- Python `dict(payload)`: allocate a fresh object holding a copy of the
referenced dict; returns the new heap and the fresh reference. -/
def Heap.copy (h : Heap) (r : Nat) : Heap × Nat :=
  (⟨h.objs ++ [h.objs.getD r []]⟩, h.objs.length)

/-- Python `obj[k] = v` through a reference: mutate the referenced dict. -/
def Heap.setItem (h : Heap) (r : Nat) (k : String) (v : JVal) : Heap :=
  ⟨h.objs.set r (jset (h.objs.getD r []) k v)⟩

/-- Dereference: the dict an object reference points to. -/
def Heap.read (h : Heap) (r : Nat) : JObj := h.objs.getD r []

/-- `_send(payload)`: under the allocation lock take `_next_id` and bump it,
then `payload_copy = dict(payload)`, `payload_copy["id"] = req_id`, and hand
the copy to `_send_raw`.  Returns (allocated id, new session state, new heap,
reference to the frame actually written to the socket). -/
def _send (st : ClientState) (h : Heap) (payload : Nat) :
    Int × ClientState × Heap × Nat :=
  let req_id := st.next_id
  let st1 := { st with next_id := st.next_id + 1 }
  let hc := h.copy payload
  let h2 := (hc.1).setItem hc.2 "id" (.num req_id)
  (req_id, st1, h2, hc.2)

/-- `_maybe_enable_features`: when `enable_coalesce_messages` is set, pin
`_next_id` to 1, send the `supported_features` frame with the literal id 1
via `_send_raw` (no allocation through `_send`), then set `_next_id` to 2 so
later ids start at 2.  Returns the new state and the pinned frame, if sent. -/
def _maybe_enable_features (st : ClientState) : ClientState × Option JObj :=
  if st.enable_coalesce then
    ({ st with next_id := 2 },
     some [("id", .num 1), ("type", .str "supported_features"),
           ("features", .obj [("coalesce_messages", .num 1)])])
  else (st, none)

/-- The ids returned by `n` successive `_send` calls on one connection
(each call threads the state and heap it produced to the next). -/
def sendIds : ClientState → Heap → Nat → Nat → List Int
  | _, _, _, 0 => []
  | st, h, p, Nat.succ n =>
    let r := _send st h p
    r.1 :: sendIds r.2.1 r.2.2.1 p n

theorem sendIds_lower_bound (n : Nat) :
    ∀ (st : ClientState) (h : Heap) (p : Nat),
      ∀ x ∈ sendIds st h p n, st.next_id ≤ x := by
  induction n with
  | zero => intro st h p x hx; simp [sendIds] at hx
  | succ n ih =>
    intro st h p x hx
    simp only [sendIds, List.mem_cons] at hx
    rcases hx with rfl | hx
    · exact le_refl _
    · have := ih ((_send st h p).2.1) ((_send st h p).2.2.1) p x hx
      have hnext : ((_send st h p).2.1).next_id = st.next_id + 1 := rfl
      omega

theorem sendIds_pairwise (n : Nat) :
    ∀ (st : ClientState) (h : Heap) (p : Nat),
      List.Pairwise (· < ·) (sendIds st h p n) := by
  induction n with
  | zero => intro st h p; simp [sendIds]
  | succ n ih =>
    intro st h p
    simp only [sendIds, List.pairwise_cons]
    refine ⟨?_, ih _ _ _⟩
    intro x hx
    have hlb := sendIds_lower_bound n ((_send st h p).2.1) ((_send st h p).2.2.1) p x hx
    have hnext : ((_send st h p).2.1).next_id = st.next_id + 1 := rfl
    have hfst : (_send st h p).1 = st.next_id := rfl
    omega

/-- C2: within one connection, every id returned by `_send` is strictly
greater than every id previously returned by `_send` (so no id is reused);
after feature negotiation (which pins its own frame to id 1 outside `_send`)
every `_send` id exceeds 1. -/
theorem send_ids_strictly_increase (st : ClientState) (h : Heap) (p n : Nat)
    (hc : st.enable_coalesce = true) :
    List.Pairwise (· < ·) (sendIds st h p n) ∧
    (∀ x ∈ sendIds (_maybe_enable_features st).1 h p n, 1 < x) := by
  refine ⟨sendIds_pairwise n st h p, ?_⟩
  intro x hx
  have hfe : ((_maybe_enable_features st).1).next_id = 2 := by
    simp [_maybe_enable_features, hc]
  have := sendIds_lower_bound n ((_maybe_enable_features st).1) h p x hx
  omega

/-- A concrete post-handshake session state (coalesce enabled, no pending
requests, no subscriptions). -/
def freshReady : ClientState :=
  { next_id := 2, pending := [], subscriptions := [], resubscribe_cache := [],
    auto_reconnect := true, close_event := false, ws_connected := true,
    enable_coalesce := true }

/-- Witness for C2 at a concrete state: three successive sends. -/
theorem send_ids_strictly_increase_inst :
    List.Pairwise (· < ·) (sendIds freshReady ⟨[[]]⟩ 0 3) ∧
    (∀ x ∈ sendIds (_maybe_enable_features freshReady).1 ⟨[[]]⟩ 0 3, 1 < x) :=
  send_ids_strictly_increase freshReady ⟨[[]]⟩ 0 3 rfl

theorem copy_read_back (h : Heap) (r : Nat) :
    ((h.copy r).1).read (h.copy r).2 = h.read r := by
  show (h.objs ++ [h.objs.getD r []]).getD h.objs.length [] = h.objs.getD r []
  rw [List.getD_eq_getElem?_getD, List.getElem?_concat_length]
  rfl

theorem send_heap_objs (st : ClientState) (h : Heap) (payload : Nat) :
    ((_send st h payload).2.2.1).objs =
      (h.objs ++ [h.read payload]).set h.objs.length
        (jset (((h.copy payload).1).read (h.copy payload).2) "id" (.num st.next_id)) :=
  rfl

/-- C9: `_send` never mutates the caller's payload dict: the argument object
reads back unchanged after the call (in particular it gains no "id" key), and
the frame written to the socket is a fresh copy with the id attached. -/
theorem send_does_not_mutate_payload (st : ClientState) (h : Heap) (payload : Nat)
    (hv : payload < h.objs.length) :
    ((_send st h payload).2.2.1).read payload = h.read payload ∧
    (jget (h.read payload) "id" = none →
      jget (((_send st h payload).2.2.1).read payload) "id" = none) ∧
    ((_send st h payload).2.2.1).read ((_send st h payload).2.2.2) =
      jset (h.read payload) "id" (.num st.next_id) := by
  have hobjs : ((_send st h payload).2.2.1).objs =
      (h.objs ++ [h.read payload]).set h.objs.length
        (jset (h.read payload) "id" (.num st.next_id)) := by
    rw [send_heap_objs, copy_read_back]
  have hread : ((_send st h payload).2.2.1).read payload = h.read payload := by
    show ((_send st h payload).2.2.1).objs.getD payload [] = h.objs.getD payload []
    rw [hobjs]
    rw [List.getD_eq_getElem?_getD, List.getD_eq_getElem?_getD]
    rw [List.getElem?_set_ne (by omega)]
    rw [List.getElem?_append_left hv]
  refine ⟨hread, fun hid => by rw [hread]; exact hid, ?_⟩
  show ((_send st h payload).2.2.1).objs.getD ((_send st h payload).2.2.2) [] =
    jset (h.read payload) "id" (.num st.next_id)
  rw [hobjs]
  have hcopyref : (_send st h payload).2.2.2 = h.objs.length := rfl
  rw [hcopyref, List.getD_eq_getElem?_getD]
  rw [List.getElem?_set_self (by simp)]
  rfl

/-- Witness for C9: a two-object heap, sending the payload at reference 0. -/
theorem send_does_not_mutate_payload_inst :
    (0 : Nat) < (Heap.mk [[("type", JVal.str "ping")], []]).objs.length ∧
    ((_send freshReady (Heap.mk [[("type", JVal.str "ping")], []]) 0).2.2.1).read 0 =
      (Heap.mk [[("type", JVal.str "ping")], []]).read 0 :=
  ⟨by decide,
   (send_does_not_mutate_payload freshReady (Heap.mk [[("type", JVal.str "ping")], []]) 0
     (by decide)).1⟩

/-- The replay descriptor appended by `subscribe_events`:
`{"op": "subscribe_events", "args": {"event_type": event_type}}`. -/
def subEventsEntry (event_type : Option String) : JVal :=
  .obj [("op", .str "subscribe_events"),
        ("args", .obj [("event_type",
          match event_type with | some s => .str s | none => .null)])]

/-- The replay descriptor appended by `subscribe_trigger`. -/
def subTriggerEntry (trigger : JVal) : JVal :=
  .obj [("op", .str "subscribe_trigger"), ("args", .obj [("trigger", trigger)])]

/-- The replay descriptor appended by `subscribe_config_entries`. -/
def subConfigEntry (type_filter : JVal) : JVal :=
  .obj [("op", .str "subscribe_config_entries"),
        ("args", .obj [("type_filter", type_filter)])]

/-- State effect of a successful `subscribe_events(callback, event_type)` call:
`_send_and_confirm` allocates the request id (which becomes the subscription
id) and the awaited result is success; then the callback is stored under that
id and the replay descriptor is appended to `_resubscribe_cache`. -/
def subscribe_events_ok (st : ClientState) (cb : Nat) (event_type : Option String) :
    Int × ClientState :=
  let sub_id := st.next_id
  (sub_id,
   { st with next_id := st.next_id + 1,
             subscriptions := dset st.subscriptions sub_id cb,
             resubscribe_cache := st.resubscribe_cache ++ [subEventsEntry event_type] })

/-- State effect of a successful `subscribe_trigger(callback, trigger)` call. -/
def subscribe_trigger_ok (st : ClientState) (cb : Nat) (trigger : JVal) :
    Int × ClientState :=
  let sub_id := st.next_id
  (sub_id,
   { st with next_id := st.next_id + 1,
             subscriptions := dset st.subscriptions sub_id cb,
             resubscribe_cache := st.resubscribe_cache ++ [subTriggerEntry trigger] })

/-- State effect of a successful `subscribe_config_entries(callback, type_filter)`
call. -/
def subscribe_config_entries_ok (st : ClientState) (cb : Nat) (type_filter : JVal) :
    Int × ClientState :=
  let sub_id := st.next_id
  (sub_id,
   { st with next_id := st.next_id + 1,
             subscriptions := dset st.subscriptions sub_id cb,
             resubscribe_cache := st.resubscribe_cache ++ [subConfigEntry type_filter] })

/-- `_match_sub_restore(entry, subscription_id)` from the source: the old id
cannot be recovered from a cache entry, so it always returns `False`. -/
def _match_sub_restore (entry : JVal) (subscription_id : Int) : Bool :=
  let _ := entry
  let _ := subscription_id
  false

/-- State effect of a successful `unsubscribe_events(subscription_id)` call:
a fresh id is allocated for the unsubscribe command itself (`bind_id=False`
still calls `_send`), the callback is popped from `_subscriptions`, and
`_resubscribe_cache` is rebuilt keeping every entry `x` with
`not _match_sub_restore(x, subscription_id)`. -/
def unsubscribe_events_ok (st : ClientState) (subscription_id : Int) : ClientState :=
  { st with next_id := st.next_id + 1,
            subscriptions := dpop st.subscriptions subscription_id,
            resubscribe_cache :=
              st.resubscribe_cache.filter
                (fun x => ! _match_sub_restore x subscription_id) }

/-- The `for restore in self._resubscribe_cache` loop of
`_restore_subscriptions`.  The loop iterates over the LIVE cache list (each
successful resubscribe appends a fresh descriptor to it, which the iteration
then reaches), pulls the next old callback from `cb_iter` before inspecting
the entry, skips the entry when the callbacks are exhausted, and collects each
successfully reissued entry into `new_cache`.  `fuel` bounds the iteration
count; every call below supplies `cache.length + 2*callbacks + 1`, which
dominates the number of Python iterations because an iteration either consumes
a callback (growing the list by at most one) or leaves the list unchanged. -/
def restoreLoop : Nat → ClientState → Nat → List Nat → List JVal →
    ClientState × List JVal
  | 0, st, _, _, new_cache => (st, new_cache)
  | fuel+1, st, i, cbs, new_cache =>
    match st.resubscribe_cache[i]? with
    | none => (st, new_cache)
    | some entry =>
      match cbs with
      | [] => restoreLoop fuel st (i+1) [] new_cache
      | cb :: rest =>
        match entry with
        | .obj fs =>
          let args := jgetD fs "args" (.obj [])
          match jget fs "op" with
          | some (.str op) =>
            if op == "subscribe_events" then
              let event_type :=
                match args with
                | .obj afs =>
                  (match jget afs "event_type" with
                   | some (.str s) => some s
                   | _ => none)
                | _ => none
              restoreLoop fuel (subscribe_events_ok st cb event_type).2 (i+1) rest
                (new_cache ++ [entry])
            else if op == "subscribe_trigger" then
              let trigger :=
                match args with | .obj afs => jgetD afs "trigger" .null | _ => .null
              restoreLoop fuel (subscribe_trigger_ok st cb trigger).2 (i+1) rest
                (new_cache ++ [entry])
            else if op == "subscribe_config_entries" then
              let tf :=
                match args with | .obj afs => jgetD afs "type_filter" .null | _ => .null
              restoreLoop fuel (subscribe_config_entries_ok st cb tf).2 (i+1) rest
                (new_cache ++ [entry])
            else restoreLoop fuel st (i+1) rest new_cache
          | _ => restoreLoop fuel st (i+1) rest new_cache
        | _ => restoreLoop fuel st (i+1) rest new_cache

/-- `_restore_subscriptions`: nothing to do on an empty cache; otherwise copy
the old id→callback table, clear `_subscriptions`, pair the cached descriptors
positionally with the old callbacks, reissue each paired descriptor through
the corresponding `subscribe_*` call, and finally overwrite
`_resubscribe_cache` with the entries that were actually reissued. -/
def _restore_subscriptions (st : ClientState) : ClientState :=
  if st.resubscribe_cache.isEmpty then st
  else
    let cbs := st.subscriptions.map (fun q => q.2)
    let st0 := { st with subscriptions := [] }
    let r := restoreLoop (st.resubscribe_cache.length + 2 * cbs.length + 1) st0 0 cbs []
    { r.1 with resubscribe_cache := r.2 }

/-- Failing trace for C1: on a fresh connection, callback token 0 subscribes
to event type "alpha" (subscription id 2) and callback token 1 subscribes to
event type "beta" (subscription id 3). -/
def c1AfterSubs : ClientState :=
  (subscribe_events_ok (subscribe_events_ok freshReady 0 (some "alpha")).2
    1 (some "beta")).2

/-- Then subscription 2 ("alpha") is unsubscribed before any reconnect. -/
def c1AfterUnsub : ClientState := unsubscribe_events_ok c1AfterSubs 2

/-- Then the connection drops and is re-established: feature negotiation runs
again (resetting `_next_id` to 2) and `_restore_subscriptions` replays. -/
def c1AfterReconnect : ClientState :=
  _restore_subscriptions (_maybe_enable_features c1AfterUnsub).1

/-- C1 fails on the code: `unsubscribe_events(2)` leaves both replay
descriptors in `_resubscribe_cache` (because `_match_sub_restore` always
returns `False`), and after reconnect `_restore_subscriptions` reissues the
unsubscribed "alpha" subscription — pairing it positionally with the
surviving callback token 1, which belonged to the "beta" subscription — while
the "beta" descriptor is dropped.  The spec-intended behaviour (descriptor
removed, never resurrected) is violated. -/
theorem unsubscribed_descriptor_resurrected :
    c1AfterUnsub.resubscribe_cache =
      [subEventsEntry (some "alpha"), subEventsEntry (some "beta")] ∧
    c1AfterReconnect.resubscribe_cache = [subEventsEntry (some "alpha")] ∧
    c1AfterReconnect.subscriptions = [(2, 1)] :=
  ⟨rfl, rfl, rfl⟩

/-- The reconnect guard at the end of `_handle_disconnect`:
`if self._auto_reconnect and not self._close_event.is_set()`. -/
def reconnect_allowed (st : ClientState) : Bool :=
  st.auto_reconnect && ! st.close_event

/-- `_handle_disconnect`: close the transport if open, fail every pending
future that is not yet done with `HAConnectionClosed("Connection lost")`,
clear `_pending`, then reconnect only if allowed.  Returns the new state, the
settle log (one entry per future actually failed), and whether the reconnect
branch is taken. -/
def _handle_disconnect (st : ClientState) :
    ClientState × List (Int × HAError) × Bool :=
  let st1 := { st with ws_connected := false }
  let settles := (st1.pending.filter (fun q => ! q.2.done)).map
      (fun q => (q.1, HAError.connectionClosed "Connection lost"))
  let st2 := { st1 with pending := [] }
  (st2, settles, reconnect_allowed st2)

/-- C3: handling a disconnect settles every not-yet-done pending request with
`HAConnectionClosed` exactly once (the settle log has pairwise-distinct ids
and contains exactly the undone pending ids, each with the connection-lost
failure), and leaves the pending table empty. -/
theorem disconnect_settles_pending_once (st : ClientState)
    (hnd : (st.pending.map (fun q => q.1)).Nodup) :
    ((_handle_disconnect st).2.1.map (fun q => q.1)).Nodup ∧
    (∀ i : Int, i ∈ (_handle_disconnect st).2.1.map (fun q => q.1) ↔
      ∃ f, (i, f) ∈ st.pending ∧ f.done = false) ∧
    (∀ q ∈ (_handle_disconnect st).2.1,
      q.2 = HAError.connectionClosed "Connection lost") ∧
    (_handle_disconnect st).1.pending = [] := by
  have hset : (_handle_disconnect st).2.1 =
      (st.pending.filter (fun q => ! q.2.done)).map
        (fun q => (q.1, HAError.connectionClosed "Connection lost")) := rfl
  have hkeys : (_handle_disconnect st).2.1.map (fun q => q.1) =
      (st.pending.filter (fun q => ! q.2.done)).map (fun q => q.1) := by
    rw [hset, List.map_map]
    rfl
  refine ⟨?_, ?_, ?_, rfl⟩
  · rw [hkeys]
    exact hnd.sublist ((List.filter_sublist st.pending).map _)
  · intro i
    rw [hkeys]
    constructor
    · intro hi
      rcases List.mem_map.mp hi with ⟨q, hq, hqi⟩
      rcases List.mem_filter.mp hq with ⟨hqmem, hqdone⟩
      refine ⟨q.2, ?_, ?_⟩
      · rw [← hqi]; exact hqmem
      · simpa using hqdone
    · rintro ⟨f, hf, hfd⟩
      exact List.mem_map.mpr ⟨(i, f), List.mem_filter.mpr ⟨hf, by simp [hfd]⟩, rfl⟩
  · intro q hq
    rw [hset] at hq
    rcases List.mem_map.mp hq with ⟨x, _, hxq⟩
    rw [← hxq]

/-- A concrete state with one unsettled and one already-resolved pending
request. -/
def c3State : ClientState :=
  { freshReady with next_id := 4,
                    pending := [(2, FutState.waiting), (3, FutState.resolved .null)] }

/-- Witness for C3 at `c3State`. -/
theorem disconnect_settles_pending_once_inst :
    (c3State.pending.map (fun q => q.1)).Nodup ∧
    (_handle_disconnect c3State).1.pending = [] :=
  ⟨by decide, (disconnect_settles_pending_once c3State (by decide)).2.2.2⟩

/-- `close()`: disable auto-reconnect, set the close event (which makes both
loops exit and blocks any reconnect), cancel the tasks, close the transport,
fail every not-yet-done pending future with
`HAConnectionClosed("Connection closed")`, and clear `_pending`.  The
subscription registry (`_subscriptions`, `_resubscribe_cache`) is NOT touched
by the source.  Returns the new state and the settle log. -/
def close (st : ClientState) : ClientState × List (Int × HAError) :=
  let st1 := { st with auto_reconnect := false, close_event := true,
                       ws_connected := false }
  let settles := (st1.pending.filter (fun q => ! q.2.done)).map
      (fun q => (q.1, HAError.connectionClosed "Connection closed"))
  ({ st1 with pending := [] }, settles)

/-- A concrete state with one live subscription, one replay descriptor, and
one unsettled pending request. -/
def c7State : ClientState :=
  { freshReady with next_id := 3,
                    pending := [(4, FutState.waiting)],
                    subscriptions := [(2, 0)],
                    resubscribe_cache := [subEventsEntry (some "alpha")] }

/-- Counterexample to C7 as stated: after `close()` the subscription registry
has NOT been cleared — the callback for subscription 2 and its replay
descriptor both remain registered. -/
theorem close_leaves_subscriptions_registered :
    (close c7State).1.subscriptions = [(2, 0)] ∧
    (close c7State).1.resubscribe_cache = [subEventsEntry (some "alpha")] ∧
    (close c7State).1.subscriptions ≠ [] :=
  ⟨rfl, rfl, fun hc => List.cons_ne_nil _ _ hc⟩

/-- C7 amended: `close()` disables auto-reconnect, sets the close event,
closes the transport, fails every not-yet-done pending request with
`HAConnectionClosed` and empties the pending table; it leaves
`_subscriptions` and `_resubscribe_cache` untouched, but no replay can happen
afterwards because the reconnect guard of `_handle_disconnect` is false on
the closed state. -/
theorem close_spec (st : ClientState) :
    (close st).1.auto_reconnect = false ∧
    (close st).1.close_event = true ∧
    (close st).1.ws_connected = false ∧
    (close st).1.pending = [] ∧
    (close st).1.subscriptions = st.subscriptions ∧
    (close st).1.resubscribe_cache = st.resubscribe_cache ∧
    (∀ q ∈ (close st).2, q.2 = HAError.connectionClosed "Connection closed") ∧
    (∀ i f, (i, f) ∈ st.pending → f.done = false →
      (i, HAError.connectionClosed "Connection closed") ∈ (close st).2) ∧
    reconnect_allowed (close st).1 = false := by
  refine ⟨rfl, rfl, rfl, rfl, rfl, rfl, ?_, ?_, rfl⟩
  · intro q hq
    rcases List.mem_map.mp hq with ⟨x, _, hxq⟩
    rw [← hxq]
  · intro i f hf hfd
    exact List.mem_map.mpr ⟨(i, f), List.mem_filter.mpr ⟨hf, by simp [hfd]⟩, rfl⟩

/-- Witness for the amended C7 at `c7State`. -/
theorem close_spec_inst :
    (close c7State).1.pending = [] ∧
    ((4 : Int), HAError.connectionClosed "Connection closed") ∈ (close c7State).2 ∧
    reconnect_allowed (close c7State).1 = false :=
  ⟨(close_spec c7State).2.2.2.1,
   (close_spec c7State).2.2.2.2.2.2.2.1 4 FutState.waiting
     (List.mem_cons_self _ _) rfl,
   (close_spec c7State).2.2.2.2.2.2.2.2⟩

/-- The side effect of `_dispatch_message` visible outside the session state:
either nothing, or the invocation of a subscription callback with an
argument. -/
inductive DispatchEffect where
  | noEffect : DispatchEffect
  | invoked : Nat → JVal → DispatchEffect

/-- The `result`/`pong` arm of `_dispatch_message`:
`fut = self._pending.get(msg_id); if fut and not fut.done(): fut.set_result(msg)`
— only the entry at `msg_id`, if present and not done, is resolved with the
frame. -/
def resolveAt (p : IDict FutState) (i : Int) (v : JVal) : IDict FutState :=
  p.map (fun q => if q.1 == i && ! q.2.done then (q.1, FutState.resolved v) else q)

/-- `_dispatch_message(msg)`: non-dict messages are skipped; `result` and
`pong` frames with an integer id resolve the matching pending future;
`event` frames with an integer id invoke the subscription callback for that
id with `msg.get("event") or msg`; handshake types and unknown types are
dropped.  (Python also treats `bool` ids as ints; the model restricts frame
ids to numbers, the only shape the server and this client produce.) -/
def _dispatch_message (st : ClientState) (msg : JVal) :
    ClientState × DispatchEffect :=
  match msg with
  | .obj fs =>
    match jget fs "type" with
    | some (.str ty) =>
      if ty == "result" then
        match jget fs "id" with
        | some (.num i) =>
          ({ st with pending := resolveAt st.pending i (.obj fs) }, .noEffect)
        | _ => (st, .noEffect)
      else if ty == "event" then
        match jget fs "id" with
        | some (.num i) =>
          match dfind st.subscriptions i with
          | some cb => (st, .invoked cb (pyOr (jgetD fs "event" .null) (.obj fs)))
          | none => (st, .noEffect)
        | _ => (st, .noEffect)
      else if ty == "pong" then
        match jget fs "id" with
        | some (.num i) =>
          ({ st with pending := resolveAt st.pending i (.obj fs) }, .noEffect)
        | _ => (st, .noEffect)
      else (st, .noEffect)
    | _ => (st, .noEffect)
  | _ => (st, .noEffect)

theorem resolveAt_preserves_other (p : IDict FutState) (i : Int) (v : JVal) :
    ∀ q ∈ p, q.1 ≠ i → q ∈ resolveAt p i v := by
  intro q hq hqi
  have hfix : (fun q : Int × FutState =>
      if q.1 == i && ! q.2.done then (q.1, FutState.resolved v) else q) q = q := by
    simp [hqi]
  rw [resolveAt, ← hfix]
  exact List.mem_map_of_mem _ hq

/-- The outcome of `_send_and_get_result` once the future for the request has
been resolved with the correlated `result` frame: success (by Python
truthiness of `result.get("success", False)`) yields `result.get("result", {})`,
anything else raises `HARequestError` carrying `result.get("error") or {}`. -/
def _send_and_get_result_settle (result : JObj) : Except HAError JVal :=
  if pyTruthy (jgetD result "success" (.bool false)) then
    .ok (jgetD result "result" (.obj []))
  else
    .error (.requestError (pyOr (jgetD result "error" .null) (.obj [])))

/-- C5: a correlated `result` frame with `success:false` (or with no true
success flag) makes the awaited call fail with `HARequestError` carrying the
server's error payload, and a `success:true` frame makes it resolve with the
frame's `result` field; dispatching the frame touches nothing in the session
but the one pending entry with the frame's id — other pending requests, the
subscriptions and the connection are unaffected. -/
theorem result_settlement_spec (result : JObj) (e r : JVal) (st : ClientState)
    (fs : JObj) (i : Int)
    (hty : jget fs "type" = some (.str "result"))
    (hid : jget fs "id" = some (.num i)) :
    ((jget result "success" = some (.bool false) ∨ jget result "success" = none) →
      jget result "error" = some e → pyTruthy e = true →
      _send_and_get_result_settle result = .error (.requestError e)) ∧
    (jget result "success" = some (.bool true) → jget result "result" = some r →
      _send_and_get_result_settle result = .ok r) ∧
    ((_dispatch_message st (.obj fs)).1.subscriptions = st.subscriptions ∧
     (_dispatch_message st (.obj fs)).1.ws_connected = st.ws_connected ∧
     (_dispatch_message st (.obj fs)).1.auto_reconnect = st.auto_reconnect ∧
     (_dispatch_message st (.obj fs)).2 = .noEffect ∧
     (∀ q ∈ st.pending, q.1 ≠ i → q ∈ (_dispatch_message st (.obj fs)).1.pending)) := by
  have hdisp : _dispatch_message st (.obj fs) =
      ({ st with pending := resolveAt st.pending i (.obj fs) }, .noEffect) := by
    simp [_dispatch_message, hty, hid]
  refine ⟨?_, ?_, ?_⟩
  · intro hsucc herr hpe
    have hs : pyTruthy (jgetD result "success" (.bool false)) = false := by
      rcases hsucc with hs | hs <;> simp [jgetD, hs, pyTruthy]
    simp only [_send_and_get_result_settle, hs, Bool.false_eq_true, if_false]
    simp [jgetD, herr, pyOr, hpe]
  · intro hsucc hres
    have hs : pyTruthy (jgetD result "success" (.bool false)) = true := by
      simp [jgetD, hsucc, pyTruthy]
    simp only [_send_and_get_result_settle, hs, if_true]
    simp [jgetD, hres]
  · rw [hdisp]
    exact ⟨rfl, rfl, rfl, rfl, fun q hq hqi => resolveAt_preserves_other _ i _ q hq hqi⟩

/-- Witness for C5: the spec's scenario frame
`{"id":2,"type":"result","success":false,"error":{"code":"x"}}`. -/
theorem result_settlement_spec_inst :
    _send_and_get_result_settle
      [("id", .num 2), ("type", .str "result"), ("success", .bool false),
       ("error", .obj [("code", .str "x")])] =
      .error (.requestError (.obj [("code", .str "x")])) ∧
    _send_and_get_result_settle
      [("id", .num 2), ("type", .str "result"), ("success", .bool true),
       ("result", .arr [])] = .ok (.arr []) :=
  ⟨(result_settlement_spec
      [("id", .num 2), ("type", .str "result"), ("success", .bool false),
       ("error", .obj [("code", .str "x")])]
      (.obj [("code", .str "x")]) .null freshReady
      [("type", .str "result"), ("id", .num 2)] 2 rfl rfl).1
      (Or.inl rfl) rfl rfl,
   (result_settlement_spec
      [("id", .num 2), ("type", .str "result"), ("success", .bool true),
       ("result", .arr [])]
      .null (.arr []) freshReady
      [("type", .str "result"), ("id", .num 2)] 2 rfl rfl).2.1 rfl rfl⟩

/-- C10: for an inbound `event` frame whose subscription callback exists, a
falsy or absent "event" field makes the callback receive the whole frame,
while a truthy "event" value is passed through as-is; the session state is
untouched either way. -/
theorem event_dispatch_arg (st : ClientState) (fs : JObj) (i : Int) (cb : Nat)
    (hty : jget fs "type" = some (.str "event"))
    (hid : jget fs "id" = some (.num i))
    (hcb : dfind st.subscriptions i = some cb) :
    (pyTruthy (jgetD fs "event" .null) = false →
      (_dispatch_message st (.obj fs)).2 = .invoked cb (.obj fs)) ∧
    (∀ v, jget fs "event" = some v → pyTruthy v = true →
      (_dispatch_message st (.obj fs)).2 = .invoked cb v) ∧
    (_dispatch_message st (.obj fs)).1 = st := by
  have hdisp : _dispatch_message st (.obj fs) =
      (st, .invoked cb (pyOr (jgetD fs "event" .null) (.obj fs))) := by
    simp [_dispatch_message, hty, hid, hcb]
  refine ⟨?_, ?_, by rw [hdisp]⟩
  · intro hfal
    rw [hdisp]
    simp [pyOr, hfal]
  · intro v hv htru
    rw [hdisp]
    simp [pyOr, jgetD, hv, htru]

/-- Witness for C10: subscription 3 with callback token 7; a frame with a
truthy event payload and one with the field absent. -/
theorem event_dispatch_arg_inst :
    (_dispatch_message { freshReady with subscriptions := [(3, 7)] }
      (.obj [("id", .num 3), ("type", .str "event"),
             ("event", .obj [("v", .num 1)])])).2 =
      .invoked 7 (.obj [("v", .num 1)]) ∧
    (_dispatch_message { freshReady with subscriptions := [(3, 7)] }
      (.obj [("id", .num 3), ("type", .str "event")])).2 =
      .invoked 7 (.obj [("id", .num 3), ("type", .str "event")]) :=
  ⟨(event_dispatch_arg { freshReady with subscriptions := [(3, 7)] }
      [("id", .num 3), ("type", .str "event"), ("event", .obj [("v", .num 1)])]
      3 7 rfl rfl rfl).2.1 (.obj [("v", .num 1)]) rfl rfl,
   (event_dispatch_arg { freshReady with subscriptions := [(3, 7)] }
      [("id", .num 3), ("type", .str "event")] 3 7 rfl rfl rfl).1 rfl⟩

/-- Python `msg.get("type") == "auth_required"`: only a string value can
equal the literal. -/
def isAuthRequiredType : Option JVal → Bool
  | some (.str s) => s == "auth_required"
  | _ => false

/-- The first-frame check of `_handshake_and_auth`:
`if isinstance(msg, dict) and msg.get("type") != "auth_required": raise
HAAuthError(...)`.  An `.ok ()` outcome means the check passed and the `auth`
frame is sent next; note that a NON-dict first frame fails the `isinstance`
guard, so no error is raised and `auth` is sent anyway. -/
def _handshake_first (msg : JVal) : Except HAError Unit :=
  match msg with
  | .obj fs =>
    if isAuthRequiredType (jget fs "type") then .ok () else .error .authError
  | _ => .ok ()

theorem isAuthRequiredType_eq_true (o : Option JVal) :
    isAuthRequiredType o = true ↔ o = some (.str "auth_required") := by
  match o with
  | none => simp [isAuthRequiredType]
  | some (.str s) => simp [isAuthRequiredType]
  | some .null | some (.bool _) | some (.num _) | some (.arr _) | some (.obj _) =>
    simp [isAuthRequiredType]

/-- Counterexample to C4 as stated: a non-object first frame (a JSON array)
is NOT rejected — the handshake check passes and `auth` is sent even though
no `auth_required` frame was received. -/
theorem handshake_array_first_frame_not_rejected :
    _handshake_first (.arr []) = .ok () ∧
    _handshake_first (.arr []) ≠ .error .authError :=
  ⟨rfl, fun hc => Except.noConfusion hc⟩

/-- C4 amended: an object first frame whose `type` differs from
`auth_required` fails the handshake with an auth error, and an object frame
of type `auth_required` passes; but a non-object first frame (such as an
array) is not rejected — the check passes and `auth` is sent anyway. -/
theorem handshake_first_frame_check (fs : JObj) (msg : JVal) :
    (jget fs "type" = some (.str "auth_required") →
      _handshake_first (.obj fs) = .ok ()) ∧
    (jget fs "type" ≠ some (.str "auth_required") →
      _handshake_first (.obj fs) = .error .authError) ∧
    ((∀ gs : JObj, msg ≠ .obj gs) → _handshake_first msg = .ok ()) := by
  refine ⟨?_, ?_, ?_⟩
  · intro hty
    simp [_handshake_first, (isAuthRequiredType_eq_true _).mpr hty]
  · intro hty
    have hfal : isAuthRequiredType (jget fs "type") = false := by
      rcases hb : isAuthRequiredType (jget fs "type") with _ | _
      · rfl
      · exact absurd ((isAuthRequiredType_eq_true _).mp hb) hty
    simp [_handshake_first, hfal]
  · intro hnot
    match msg with
    | .obj gs => exact absurd rfl (hnot gs)
    | .null | .bool _ | .num _ | .str _ | .arr _ => rfl

/-- Witness for the amended C4: a wrong-typed object frame is rejected, the
`auth_required` frame passes, and a numeric (non-object) frame passes. -/
theorem handshake_first_frame_check_inst :
    _handshake_first (.obj [("type", .str "auth_ok")]) = .error .authError ∧
    _handshake_first (.obj [("type", .str "auth_required")]) = .ok () ∧
    _handshake_first (.num 5) = .ok () :=
  ⟨(handshake_first_frame_check [("type", .str "auth_ok")] (.num 5)).2.1
     (fun hc => by simp [jget] at hc),
   (handshake_first_frame_check [("type", .str "auth_required")] (.num 5)).1 rfl,
   (handshake_first_frame_check [] (.num 5)).2.2 (fun _ hc => JVal.noConfusion hc)⟩

/-- `_recv_json`: decode one inbound text message with `json.loads`
(modelled as a parameter, since it is a library function external to the
repository); on a decode error the message is not a fault — a sentinel dict
`{"raw": msg}` carrying the original text is returned instead, and any
well-formed JSON value (object or array) is returned as decoded for the
caller to dispatch.  Totality of this Lean function is the "never raises"
guarantee. -/
def _recv_json (jsonLoads : String → Option JVal) (msg : String) : JVal :=
  match jsonLoads msg with
  | some data => data
  | none => .obj [("raw", .str msg)]

/-- C6: decoding never fails — malformed input yields the `{"raw": text}`
sentinel carrying the original text, and well-formed JSON is returned exactly
as decoded. -/
theorem recv_json_spec (jsonLoads : String → Option JVal) (msg : String) :
    (jsonLoads msg = none →
      _recv_json jsonLoads msg = .obj [("raw", .str msg)]) ∧
    (∀ v, jsonLoads msg = some v → _recv_json jsonLoads msg = v) := by
  constructor
  · intro hn
    simp [_recv_json, hn]
  · intro v hv
    simp [_recv_json, hv]

/-- Witness for C6: a decoder that fails on the given text, and one that
returns an array. -/
theorem recv_json_spec_inst :
    _recv_json (fun _ => none) "not json" = .obj [("raw", .str "not json")] ∧
    _recv_json (fun _ => some (.arr [.num 1])) "[1]" = .arr [.num 1] :=
  ⟨(recv_json_spec (fun _ => none) "not json").1 rfl,
   (recv_json_spec (fun _ => some (.arr [.num 1])) "[1]").2 (.arr [.num 1]) rfl⟩

/-- One subscription-management operation performed by a flow helper. -/
inductive FlowAction where
  | subscribeFlow : Int → String → FlowAction
  | unsubscribeFlow : Int → FlowAction

/-- How the awaited part of `wait_for_flow_progress` ends: the matching event
arrives and the future holds the flow id, the overall `asyncio.wait_for`
timeout elapses, or the wait fails with some other error. -/
inductive WaitOutcome where
  | arrived : String → WaitOutcome
  | timedOut : WaitOutcome
  | errored : HAError → WaitOutcome

/-- `wait_for_flow_progress` after its `subscribe_events` call returned
`sub_id`: the `try` block awaits the future under the overall timeout and the
`finally` block runs `unsubscribe_events(sub_id)` on every path — successful
return, `TimeoutError`, or any other failure — before the flow id is returned
or the exception propagates.  Returns the trace of subscription operations
the call performs together with its outcome. -/
def wait_for_flow_progress_run (sub_id : Int) (outcome : WaitOutcome) :
    List FlowAction × Except HAError String :=
  let subscribeStep := FlowAction.subscribeFlow sub_id "data_entry_flow_progressed"
  let cleanupStep := FlowAction.unsubscribeFlow sub_id
  match outcome with
  | .arrived fid => ([subscribeStep, cleanupStep], .ok fid)
  | .timedOut => ([subscribeStep, cleanupStep], .error .timeoutError)
  | .errored e => ([subscribeStep, cleanupStep], .error e)

/-- C8: on every path of `wait_for_flow_progress` — event arrived, overall
timeout, or other failure — the final subscription operation performed is the
cleanup `unsubscribe_events(sub_id)`, and the value returned or the error
propagated matches the path. -/
theorem wait_flow_progress_always_unsubscribes (sub_id : Int)
    (outcome : WaitOutcome) :
    (wait_for_flow_progress_run sub_id outcome).1.getLast? =
      some (FlowAction.unsubscribeFlow sub_id) ∧
    (∀ fid, outcome = .arrived fid →
      (wait_for_flow_progress_run sub_id outcome).2 = .ok fid) ∧
    (outcome = .timedOut →
      (wait_for_flow_progress_run sub_id outcome).2 = .error .timeoutError) ∧
    (∀ e, outcome = .errored e →
      (wait_for_flow_progress_run sub_id outcome).2 = .error e) := by
  cases outcome <;> simp [wait_for_flow_progress_run]

/-- Witness for C8 on the timeout path. -/
theorem wait_flow_progress_always_unsubscribes_inst :
    (wait_for_flow_progress_run 5 .timedOut).1.getLast? =
      some (FlowAction.unsubscribeFlow 5) ∧
    (wait_for_flow_progress_run 5 .timedOut).2 = .error .timeoutError :=
  ⟨(wait_flow_progress_always_unsubscribes 5 .timedOut).1,
   (wait_flow_progress_always_unsubscribes 5 .timedOut).2.2.1 rfl⟩

end HA
